import Mathlib

/-!
Verification of the video-acquisition workflow of the heart-health monitor
client: the upload validator (`validateFile` in `VideoUpload.tsx`) and the
recording-page orchestrator (`handleProcess` / `handleReset` in
`RecordingPage.tsx`), embedded shallowly as pure Lean functions.
-/

namespace HridaySpec

/-- A candidate upload file as the browser presents it: a name, a declared
MIME type, and a byte size (`File.name`, `File.type`, `File.size`). -/
structure VFile where
  name : String
  type : String
  size : Nat
deriving DecidableEq, Repr

/-- A recorded video blob; only its byte size is observable to this page. -/
structure VBlob where
  size : Nat
deriving DecidableEq, Repr

/-- The size ceiling of `validateFile`: `100 * 1024 * 1024` bytes. -/
def maxSize : Nat := 100 * 1024 * 1024

/-- The accepted MIME types of `validateFile`. -/
def validTypes : List String :=
  ["video/mp4", "video/webm", "video/quicktime", "video/x-msvideo"]

/-- ASCII lowercasing on character codes, the case folding performed by a
case-insensitive JavaScript regex over an ASCII pattern. -/
def lowerNat (n : Nat) : Nat := if 65 ≤ n ∧ n ≤ 90 then n + 32 else n

/-- Case-insensitive (ASCII folding) prefix test on character lists. -/
def isPrefixOfCI : List Char → List Char → Bool
  | [], _ => true
  | _ :: _, [] => false
  | a :: as, b :: bs => (lowerNat a.toNat == lowerNat b.toNat) && isPrefixOfCI as bs

/-- The extension test of `validateFile`: the JavaScript regex match against
the pattern dot-(mp4|webm|mov|avi) anchored at the end of the name with the
case-insensitive flag. Without the multiline flag the anchor matches only at
the very end of the string, so this is a case-insensitive suffix test. -/
def extMatches (name : String) : Bool :=
  [".mp4", ".webm", ".mov", ".avi"].any
    (fun e => isPrefixOfCI e.data.reverse name.data.reverse)

/-- The format-rejection message set by `validateFile`. -/
def formatError : String := "Please upload a valid video file (MP4, WebM, MOV, or AVI)"

/-- The size-rejection message set by `validateFile`. -/
def sizeError : String := "Video file must be less than 100MB"

/-- The outcome of one `validateFile` call: the returned boolean together
with the error string the call leaves behind (`setError`). -/
structure ValidationOutcome where
  accepted : Bool
  error : Option String
deriving DecidableEq, Repr

/-- `validateFile` from `VideoUpload.tsx`: rejects with the format message
when the MIME type is not accepted AND the name does not end in an accepted
extension; otherwise rejects with the size message when the size exceeds the
ceiling; otherwise accepts and clears the error. -/
def validateFile (file : VFile) : ValidationOutcome :=
  if !(validTypes.contains file.type) && !(extMatches file.name) then
    { accepted := false, error := some formatError }
  else if file.size > maxSize then
    { accepted := false, error := some sizeError }
  else
    { accepted := true, error := none }

/-- C1: a file whose MIME type is accepted or whose name carries an accepted
extension, and whose size is within the ceiling, is accepted; and the format
rejection occurs only when both the MIME test and the extension test fail. -/
theorem validateFile_accepts_valid_media (f : VFile) :
    ((validTypes.contains f.type = true ∨ extMatches f.name = true) →
      f.size ≤ maxSize → (validateFile f).accepted = true)
    ∧ ((validateFile f).error = some formatError →
      validTypes.contains f.type = false ∧ extMatches f.name = false) := by
  constructor
  · intro h hsize
    rcases h with h | h
    · have h1 : f.type ∈ validTypes := by simpa using h
      simp [validateFile, h1, Nat.not_lt.mpr hsize]
    · simp [validateFile, h, Nat.not_lt.mpr hsize]
  · intro herr
    have hc : (!(validTypes.contains f.type) && !(extMatches f.name)) = true := by
      by_contra hcn
      have hc' : (!(validTypes.contains f.type) && !(extMatches f.name)) = false :=
        Bool.eq_false_iff.mpr hcn
      unfold validateFile at herr
      rw [hc'] at herr
      rw [if_neg Bool.false_ne_true] at herr
      rcases Nat.lt_or_ge maxSize f.size with hs | hs
      · rw [if_pos hs] at herr
        simp [sizeError, formatError] at herr
      · rw [if_neg (Nat.not_lt.mpr hs)] at herr
        simp at herr
    simpa using hc

/-- Witness for C1 at a 50 MiB mp4 file. -/
theorem validateFile_accepts_valid_media_witness :
    (validTypes.contains "video/mp4" = true ∨ extMatches "clip.mp4" = true)
    ∧ (validateFile ⟨"clip.mp4", "video/mp4", 52428800⟩).accepted = true :=
  ⟨Or.inl (by decide),
    (validateFile_accepts_valid_media ⟨"clip.mp4", "video/mp4", 52428800⟩).1
      (Or.inl (by decide)) (by decide)⟩

/-- C2 counterexample: an oversize file whose format also fails is rejected
with the format message, not the size-specific message the claim requires. -/
theorem validateFile_oversize_reason_counterexample :
    (VFile.mk "notes.txt" "text/plain" 104857601).size > maxSize
    ∧ (validateFile (VFile.mk "notes.txt" "text/plain" 104857601)).error = some formatError
    ∧ formatError ≠ sizeError := by
  refine ⟨by decide, by decide, by decide⟩

/-- C2 amended: every oversize file is rejected; the reason is the
size-specific one whenever the file passes the format test (accepted MIME
type or accepted extension), and is the format reason whenever both format
tests fail. -/
theorem validateFile_oversize_rejected (f : VFile) (h : f.size > maxSize) :
    (validateFile f).accepted = false
    ∧ ((validTypes.contains f.type = true ∨ extMatches f.name = true) →
        (validateFile f).error = some sizeError)
    ∧ (validTypes.contains f.type = false → extMatches f.name = false →
        (validateFile f).error = some formatError)
    ∧ sizeError ≠ formatError := by
  have hfmt : ∀ hc : (!(validTypes.contains f.type) && !(extMatches f.name)) = false,
      validateFile f = { accepted := false, error := some sizeError } := by
    intro hc
    unfold validateFile
    rw [hc]
    rw [if_neg Bool.false_ne_true, if_pos h]
  refine ⟨?_, ?_, ?_, by decide⟩
  · rcases Bool.eq_false_or_eq_true (!(validTypes.contains f.type) && !(extMatches f.name))
      with hc | hc
    · unfold validateFile
      rw [hc]
      simp
    · rw [hfmt hc]
  · intro hok
    have hc : (!(validTypes.contains f.type) && !(extMatches f.name)) = false := by
      rcases hok with hk | hk
      · rw [hk]; rfl
      · rw [hk]; simp
    rw [hfmt hc]
  · intro ha hb
    have hc : (!(validTypes.contains f.type) && !(extMatches f.name)) = true := by
      rw [ha, hb]; rfl
    unfold validateFile
    rw [hc]
    simp

/-- Witness for C2 at a 150 MiB quicktime file. -/
theorem validateFile_oversize_rejected_witness :
    (157286400 > maxSize)
    ∧ (validateFile ⟨"clip.mov", "video/quicktime", 157286400⟩).accepted = false :=
  ⟨by decide,
    (validateFile_oversize_rejected ⟨"clip.mov", "video/quicktime", 157286400⟩
      (by decide)).1⟩

/-! ## RecordingPage: state, collaborators, and the processing pipeline -/

/-- The mode union of `RecordingPage` (the strings select, record, upload). -/
inductive Mode where
  | select
  | record
  | upload
deriving DecidableEq, Repr

/-- The authenticated user read from the auth context: an id and an email
that may be absent. -/
structure User where
  id : String
  email : Option String
deriving DecidableEq, Repr

/-- The full component state of `RecordingPage`: the six `useState` cells. -/
structure SessionState where
  mode : Mode
  videoBlob : Option VBlob
  videoFile : Option VFile
  uploading : Bool
  uploadComplete : Bool
  recordingId : Option String
deriving DecidableEq, Repr

/-- The initial `RecordingPage` state: mode select, no artifact, no flags. -/
def initialState : SessionState :=
  { mode := Mode.select, videoBlob := none, videoFile := none,
    uploading := false, uploadComplete := false, recordingId := none }

/-- Modelled from the spec: the record returned by
`HealthMonitoringAPI.createRecording` (api.ts is not among the supplied
sources); only its `id` field is consumed by `RecordingPage`. -/
structure Recording where
  id : String
deriving DecidableEq, Repr

/-- Modelled from the spec: one heart-rate sample row produced by the
simulated series generator, carrying the server-assigned `id` and
`created_at` next to the payload fields `{timestamp, value}` keyed to the
recording. -/
structure HeartRateRow where
  id : String
  created_at : String
  recording_id : String
  timestamp : Nat
  value : Nat
deriving DecidableEq, Repr

/-- A heart-rate row after `RecordingPage` destructures away `id` and
`created_at` before persisting. -/
structure HeartRateRowSaved where
  recording_id : String
  timestamp : Nat
  value : Nat
deriving DecidableEq, Repr

/-- The rest-spread in `handleProcess`: drop `id` and `created_at`, keep
every other field of the row unchanged. -/
def stripHeartRateRow (r : HeartRateRow) : HeartRateRowSaved :=
  { recording_id := r.recording_id, timestamp := r.timestamp, value := r.value }

/-- Modelled from the spec: the risk prediction produced by the simulated
predictor, carrying the server-assigned `id` and `created_at` next to the
payload fields `{riskLevel, riskScore, insights}` keyed to the recording. -/
structure RiskPrediction where
  id : String
  created_at : String
  recording_id : String
  risk_level : String
  risk_score : Nat
  insights : List String
deriving DecidableEq, Repr

/-- A risk prediction after `RecordingPage` destructures away `id` and
`created_at` before persisting. -/
structure RiskPredictionSaved where
  recording_id : String
  risk_level : String
  risk_score : Nat
  insights : List String
deriving DecidableEq, Repr

/-- The rest-spread in `handleProcess`: drop `id` and `created_at`, keep
every other field of the prediction unchanged. -/
def stripRiskPrediction (p : RiskPrediction) : RiskPredictionSaved :=
  { recording_id := p.recording_id, risk_level := p.risk_level,
    risk_score := p.risk_score, insights := p.insights }

/-- Modelled from the spec: the `HealthMonitoringAPI` surface consumed by
`handleProcess`. Each call may fail (a JavaScript throw), carrying the
thrown error's message. -/
structure APIEnv where
  ensureUserProfile : String → String → Except String Unit
  createRecording : String → String → Nat → Except String Recording
  simulateHeartRateData : String → Nat → String → Except String (List HeartRateRow)
  simulateRiskPrediction : String → List HeartRateRow → String → Except String RiskPrediction
  saveHeartRateData : List HeartRateRowSaved → Except String Unit
  saveRiskPrediction : RiskPredictionSaved → Except String Unit

/-- One observable call `handleProcess` makes on the API, with the exact
arguments passed. -/
inductive APICall where
  | ensureUserProfile (userId email : String)
  | createRecording (userId fileName : String) (duration : Nat)
  | simulateHeartRateData (recordingId : String) (duration : Nat) (fileName : String)
  | simulateRiskPrediction (recordingId : String) (data : List HeartRateRow) (fileName : String)
  | saveHeartRateData (rows : List HeartRateRowSaved)
  | saveRiskPrediction (row : RiskPredictionSaved)
deriving DecidableEq, Repr

/-- The observable result of one `handleProcess` invocation: the component
state left behind, the ordered list of API calls made, the navigation
scheduled by `setTimeout` (delay in milliseconds, page, recording id), and
the message passed to `alert` if the catch block ran. -/
structure ProcessOutcome where
  state : SessionState
  trace : List APICall
  scheduledNav : Option (Nat × String × String)
  alertMsg : Option String
deriving DecidableEq, Repr

/-- The synthetic file name used when no upload name is available:
recording-(timestamp).webm built from `Date.now()`. -/
def syntheticName (now : Nat) : String :=
  "recording-" ++ toString now ++ ".webm"

/-- The fileName expression of `handleProcess`: the optional chain on
`videoFile` followed by JavaScript logical-or, under which an empty string
is falsy, so an empty upload name also falls through to the synthetic
name. -/
def fileNameOf (videoFile : Option VFile) (now : Nat) : String :=
  match videoFile with
  | some f => if f.name = "" then syntheticName now else f.name
  | none => syntheticName now

/-- The duration expression of `handleProcess`: the conditional yields 60 on
both branches. -/
def durationOf (videoFile : Option VFile) : Nat :=
  if videoFile.isSome then 60 else 60

/-- The alert text of the catch block of `handleProcess`, around the thrown
error's message. -/
def processFailureMsg (e : String) : String :=
  "Failed to process video: " ++ e

/-- `handleProcess` from `RecordingPage.tsx`. Guards: no authenticated user,
or neither a recorded blob nor an uploaded file, return at once. Otherwise
set `uploading`, run profile upsert, recording creation, series simulation,
prediction simulation, then persist the stripped series and the stripped
prediction, strictly in that order; a failure at any call skips the rest,
alerts with the failure message, and leaves the remaining state untouched;
on success set `recordingId` and `uploadComplete` and schedule navigation to
the analysis page after 2000 ms; `uploading` is cleared on every exit of the
try block (the finally clause). -/
def handleProcess (user : Option User) (s : SessionState) (now : Nat)
    (api : APIEnv) : ProcessOutcome :=
  match user with
  | none => { state := s, trace := [], scheduledNav := none, alertMsg := none }
  | some u =>
    if s.videoBlob.isNone && s.videoFile.isNone then
      { state := s, trace := [], scheduledNav := none, alertMsg := none }
    else
      match api.ensureUserProfile u.id (u.email.getD "") with
      | Except.error e =>
        { state := { s with uploading := false },
          trace := [APICall.ensureUserProfile u.id (u.email.getD "")],
          scheduledNav := none, alertMsg := some (processFailureMsg e) }
      | Except.ok _ =>
        match api.createRecording u.id (fileNameOf s.videoFile now) (durationOf s.videoFile) with
        | Except.error e =>
          { state := { s with uploading := false },
            trace := [APICall.ensureUserProfile u.id (u.email.getD ""),
              APICall.createRecording u.id (fileNameOf s.videoFile now) (durationOf s.videoFile)],
            scheduledNav := none, alertMsg := some (processFailureMsg e) }
        | Except.ok recording =>
          match api.simulateHeartRateData recording.id (durationOf s.videoFile)
              (fileNameOf s.videoFile now) with
          | Except.error e =>
            { state := { s with uploading := false },
              trace := [APICall.ensureUserProfile u.id (u.email.getD ""),
                APICall.createRecording u.id (fileNameOf s.videoFile now) (durationOf s.videoFile),
                APICall.simulateHeartRateData recording.id (durationOf s.videoFile)
                  (fileNameOf s.videoFile now)],
              scheduledNav := none, alertMsg := some (processFailureMsg e) }
          | Except.ok heartRateData =>
            match api.simulateRiskPrediction recording.id heartRateData
                (fileNameOf s.videoFile now) with
            | Except.error e =>
              { state := { s with uploading := false },
                trace := [APICall.ensureUserProfile u.id (u.email.getD ""),
                  APICall.createRecording u.id (fileNameOf s.videoFile now) (durationOf s.videoFile),
                  APICall.simulateHeartRateData recording.id (durationOf s.videoFile)
                    (fileNameOf s.videoFile now),
                  APICall.simulateRiskPrediction recording.id heartRateData
                    (fileNameOf s.videoFile now)],
                scheduledNav := none, alertMsg := some (processFailureMsg e) }
            | Except.ok riskPrediction =>
              match api.saveHeartRateData (heartRateData.map stripHeartRateRow) with
              | Except.error e =>
                { state := { s with uploading := false },
                  trace := [APICall.ensureUserProfile u.id (u.email.getD ""),
                    APICall.createRecording u.id (fileNameOf s.videoFile now) (durationOf s.videoFile),
                    APICall.simulateHeartRateData recording.id (durationOf s.videoFile)
                      (fileNameOf s.videoFile now),
                    APICall.simulateRiskPrediction recording.id heartRateData
                      (fileNameOf s.videoFile now),
                    APICall.saveHeartRateData (heartRateData.map stripHeartRateRow)],
                  scheduledNav := none, alertMsg := some (processFailureMsg e) }
              | Except.ok _ =>
                match api.saveRiskPrediction (stripRiskPrediction riskPrediction) with
                | Except.error e =>
                  { state := { s with uploading := false },
                    trace := [APICall.ensureUserProfile u.id (u.email.getD ""),
                      APICall.createRecording u.id (fileNameOf s.videoFile now) (durationOf s.videoFile),
                      APICall.simulateHeartRateData recording.id (durationOf s.videoFile)
                        (fileNameOf s.videoFile now),
                      APICall.simulateRiskPrediction recording.id heartRateData
                        (fileNameOf s.videoFile now),
                      APICall.saveHeartRateData (heartRateData.map stripHeartRateRow),
                      APICall.saveRiskPrediction (stripRiskPrediction riskPrediction)],
                    scheduledNav := none, alertMsg := some (processFailureMsg e) }
                | Except.ok _ =>
                  { state := { s with uploading := false, uploadComplete := true, recordingId := some recording.id },
                    trace := [APICall.ensureUserProfile u.id (u.email.getD ""),
                      APICall.createRecording u.id (fileNameOf s.videoFile now) (durationOf s.videoFile),
                      APICall.simulateHeartRateData recording.id (durationOf s.videoFile)
                        (fileNameOf s.videoFile now),
                      APICall.simulateRiskPrediction recording.id heartRateData
                        (fileNameOf s.videoFile now),
                      APICall.saveHeartRateData (heartRateData.map stripHeartRateRow),
                      APICall.saveRiskPrediction (stripRiskPrediction riskPrediction)],
                    scheduledNav := some (2000, "analysis", recording.id),
                    alertMsg := none }

/-- `handleReset` from `RecordingPage.tsx`: clears the blob, the file and
the completion flag and returns the mode to select; nothing else is
written. -/
def handleReset (s : SessionState) : SessionState :=
  { s with videoBlob := none, videoFile := none, uploadComplete := false, mode := Mode.select }

/-- Clicking an Analyze Video button: both render with the `disabled`
attribute bound to `uploading`, and a disabled button does not fire its
click handler, so `handleProcess` runs only when `uploading` is false. -/
def clickAnalyze (user : Option User) (s : SessionState) (now : Nat)
    (api : APIEnv) : ProcessOutcome :=
  if s.uploading then
    { state := s, trace := [], scheduledNav := none, alertMsg := none }
  else handleProcess user s now api

/-! ## Concrete data used by witnesses and counterexamples -/

/-- A demonstration authenticated user. -/
def demoUser : User := { id := "user-1", email := some "u@example.com" }

/-- A demonstration accepted upload: 50 MiB mp4. -/
def demoFile : VFile := { name := "clip.mp4", type := "video/mp4", size := 52428800 }

/-- The reviewing state holding the demonstration upload. -/
def demoUploadState : SessionState :=
  { mode := Mode.upload, videoBlob := none, videoFile := some demoFile,
    uploading := false, uploadComplete := false, recordingId := none }

/-- The recording record the demonstration API returns. -/
def demoRecording : Recording := { id := "rec-1" }

/-- One demonstration heart-rate row. -/
def demoRow : HeartRateRow :=
  { id := "row-0", created_at := "2025-01-01", recording_id := "rec-1",
    timestamp := 0, value := 72 }

/-- One demonstration risk prediction. -/
def demoPrediction : RiskPrediction :=
  { id := "pred-0", created_at := "2025-01-01", recording_id := "rec-1",
    risk_level := "low", risk_score := 12, insights := ["demo"] }

/-- A demonstration API on which every call succeeds. -/
def okAPI : APIEnv :=
  { ensureUserProfile := fun _ _ => Except.ok (),
    createRecording := fun _ _ _ => Except.ok demoRecording,
    simulateHeartRateData := fun _ _ _ => Except.ok [demoRow],
    simulateRiskPrediction := fun _ _ _ => Except.ok demoPrediction,
    saveHeartRateData := fun _ => Except.ok (),
    saveRiskPrediction := fun _ => Except.ok () }

/-- A demonstration API on which the create-recording step throws. -/
def failCreateAPI : APIEnv :=
  { okAPI with createRecording := fun _ _ _ => Except.error "boom" }

/-! ## Helper lemmas about handleProcess -/

/-- With no authenticated user the handler returns at the first guard. -/
theorem handleProcess_no_user (s : SessionState) (now : Nat) (api : APIEnv) :
    handleProcess none s now api =
      { state := s, trace := [], scheduledNav := none, alertMsg := none } := rfl

/-- With neither a blob nor a file the handler returns at the second
guard. -/
theorem handleProcess_no_artifact (u : User) (s : SessionState) (now : Nat)
    (api : APIEnv) (hg : (s.videoBlob.isNone && s.videoFile.isNone) = true) :
    handleProcess (some u) s now api =
      { state := s, trace := [], scheduledNav := none, alertMsg := none } := by
  simp [handleProcess, hg]

/-- Past both guards, an invocation either fails at some step, leaving every
state cell except the uploading flag untouched, scheduling nothing, and
alerting with the failure message, or succeeds, completing with the created
recording's id and scheduling navigation. -/
theorem handleProcess_run_cases (u : User) (s : SessionState) (now : Nat)
    (api : APIEnv) (hg : (s.videoBlob.isNone && s.videoFile.isNone) = false) :
    (∃ e t, handleProcess (some u) s now api =
      { state := { s with uploading := false }, trace := t,
        scheduledNav := none, alertMsg := some (processFailureMsg e) })
    ∨ (∃ r t, handleProcess (some u) s now api =
      { state := { s with uploading := false, uploadComplete := true, recordingId := some r },
        trace := t, scheduledNav := some (2000, "analysis", r), alertMsg := none }) := by
  simp only [handleProcess, hg, Bool.false_eq_true, if_false]
  split
  · exact Or.inl ⟨_, _, rfl⟩
  · split
    · exact Or.inl ⟨_, _, rfl⟩
    · split
      · exact Or.inl ⟨_, _, rfl⟩
      · split
        · exact Or.inl ⟨_, _, rfl⟩
        · split
          · exact Or.inl ⟨_, _, rfl⟩
          · split
            · exact Or.inl ⟨_, _, rfl⟩
            · exact Or.inr ⟨_, _, rfl⟩

/-- C3: with an authenticated user and an artifact, the pipeline calls run
strictly in the listed order; when every call succeeds the outcome is the
complete state carrying exactly the id returned by the create-recording
step, with the full ordered trace; and a failure at any step cuts the trace
at that step, so no later step runs. -/
theorem handleProcess_pipeline_order (u : User) (s : SessionState) (now : Nat)
    (api : APIEnv) (hg : (s.videoBlob.isNone && s.videoFile.isNone) = false) :
    (∀ rec hrd pred,
      api.ensureUserProfile u.id (u.email.getD "") = Except.ok () →
      api.createRecording u.id (fileNameOf s.videoFile now) (durationOf s.videoFile)
        = Except.ok rec →
      api.simulateHeartRateData rec.id (durationOf s.videoFile) (fileNameOf s.videoFile now)
        = Except.ok hrd →
      api.simulateRiskPrediction rec.id hrd (fileNameOf s.videoFile now) = Except.ok pred →
      api.saveHeartRateData (hrd.map stripHeartRateRow) = Except.ok () →
      api.saveRiskPrediction (stripRiskPrediction pred) = Except.ok () →
      handleProcess (some u) s now api =
        { state := { s with uploading := false, uploadComplete := true, recordingId := some rec.id },
          trace := [APICall.ensureUserProfile u.id (u.email.getD ""),
            APICall.createRecording u.id (fileNameOf s.videoFile now) (durationOf s.videoFile),
            APICall.simulateHeartRateData rec.id (durationOf s.videoFile) (fileNameOf s.videoFile now),
            APICall.simulateRiskPrediction rec.id hrd (fileNameOf s.videoFile now),
            APICall.saveHeartRateData (hrd.map stripHeartRateRow),
            APICall.saveRiskPrediction (stripRiskPrediction pred)],
          scheduledNav := some (2000, "analysis", rec.id), alertMsg := none })
    ∧ (∀ e, api.ensureUserProfile u.id (u.email.getD "") = Except.error e →
        (handleProcess (some u) s now api).trace =
          [APICall.ensureUserProfile u.id (u.email.getD "")])
    ∧ (∀ e, api.ensureUserProfile u.id (u.email.getD "") = Except.ok () →
        api.createRecording u.id (fileNameOf s.videoFile now) (durationOf s.videoFile)
          = Except.error e →
        (handleProcess (some u) s now api).trace =
          [APICall.ensureUserProfile u.id (u.email.getD ""),
           APICall.createRecording u.id (fileNameOf s.videoFile now) (durationOf s.videoFile)])
    ∧ (∀ rec e, api.ensureUserProfile u.id (u.email.getD "") = Except.ok () →
        api.createRecording u.id (fileNameOf s.videoFile now) (durationOf s.videoFile)
          = Except.ok rec →
        api.simulateHeartRateData rec.id (durationOf s.videoFile) (fileNameOf s.videoFile now)
          = Except.error e →
        (handleProcess (some u) s now api).trace =
          [APICall.ensureUserProfile u.id (u.email.getD ""),
           APICall.createRecording u.id (fileNameOf s.videoFile now) (durationOf s.videoFile),
           APICall.simulateHeartRateData rec.id (durationOf s.videoFile) (fileNameOf s.videoFile now)])
    ∧ (∀ rec hrd e, api.ensureUserProfile u.id (u.email.getD "") = Except.ok () →
        api.createRecording u.id (fileNameOf s.videoFile now) (durationOf s.videoFile)
          = Except.ok rec →
        api.simulateHeartRateData rec.id (durationOf s.videoFile) (fileNameOf s.videoFile now)
          = Except.ok hrd →
        api.simulateRiskPrediction rec.id hrd (fileNameOf s.videoFile now) = Except.error e →
        (handleProcess (some u) s now api).trace =
          [APICall.ensureUserProfile u.id (u.email.getD ""),
           APICall.createRecording u.id (fileNameOf s.videoFile now) (durationOf s.videoFile),
           APICall.simulateHeartRateData rec.id (durationOf s.videoFile) (fileNameOf s.videoFile now),
           APICall.simulateRiskPrediction rec.id hrd (fileNameOf s.videoFile now)])
    ∧ (∀ rec hrd pred e, api.ensureUserProfile u.id (u.email.getD "") = Except.ok () →
        api.createRecording u.id (fileNameOf s.videoFile now) (durationOf s.videoFile)
          = Except.ok rec →
        api.simulateHeartRateData rec.id (durationOf s.videoFile) (fileNameOf s.videoFile now)
          = Except.ok hrd →
        api.simulateRiskPrediction rec.id hrd (fileNameOf s.videoFile now) = Except.ok pred →
        api.saveHeartRateData (hrd.map stripHeartRateRow) = Except.error e →
        (handleProcess (some u) s now api).trace =
          [APICall.ensureUserProfile u.id (u.email.getD ""),
           APICall.createRecording u.id (fileNameOf s.videoFile now) (durationOf s.videoFile),
           APICall.simulateHeartRateData rec.id (durationOf s.videoFile) (fileNameOf s.videoFile now),
           APICall.simulateRiskPrediction rec.id hrd (fileNameOf s.videoFile now),
           APICall.saveHeartRateData (hrd.map stripHeartRateRow)])
    ∧ (∀ rec hrd pred e, api.ensureUserProfile u.id (u.email.getD "") = Except.ok () →
        api.createRecording u.id (fileNameOf s.videoFile now) (durationOf s.videoFile)
          = Except.ok rec →
        api.simulateHeartRateData rec.id (durationOf s.videoFile) (fileNameOf s.videoFile now)
          = Except.ok hrd →
        api.simulateRiskPrediction rec.id hrd (fileNameOf s.videoFile now) = Except.ok pred →
        api.saveHeartRateData (hrd.map stripHeartRateRow) = Except.ok () →
        api.saveRiskPrediction (stripRiskPrediction pred) = Except.error e →
        (handleProcess (some u) s now api).scheduledNav = none
        ∧ (handleProcess (some u) s now api).state.uploadComplete = s.uploadComplete) := by
  refine ⟨?_, ?_, ?_, ?_, ?_, ?_, ?_⟩
  · intro rec hrd pred h1 h2 h3 h4 h5 h6
    simp only [handleProcess, hg, Bool.false_eq_true, if_false]
    simp only [h1, h2, h3, h4, h5, h6]
  · intro e h1
    simp only [handleProcess, hg, Bool.false_eq_true, if_false]
    simp only [h1]
  · intro e h1 h2
    simp only [handleProcess, hg, Bool.false_eq_true, if_false]
    simp only [h1, h2]
  · intro rec e h1 h2 h3
    simp only [handleProcess, hg, Bool.false_eq_true, if_false]
    simp only [h1, h2, h3]
  · intro rec hrd e h1 h2 h3 h4
    simp only [handleProcess, hg, Bool.false_eq_true, if_false]
    simp only [h1, h2, h3, h4]
  · intro rec hrd pred e h1 h2 h3 h4 h5
    simp only [handleProcess, hg, Bool.false_eq_true, if_false]
    simp only [h1, h2, h3, h4, h5]
  · intro rec hrd pred e h1 h2 h3 h4 h5 h6
    simp only [handleProcess, hg, Bool.false_eq_true, if_false]
    simp only [h1, h2, h3, h4, h5, h6]
    exact ⟨trivial, trivial⟩

/-- Witness for C3: the demonstration upload on the all-success API reaches
the complete state with the created id, after the full ordered trace. -/
theorem handleProcess_pipeline_order_witness :
    handleProcess (some demoUser) demoUploadState 0 okAPI =
      { state := { demoUploadState with uploading := false, uploadComplete := true, recordingId := some "rec-1" },
        trace := [APICall.ensureUserProfile "user-1" "u@example.com",
          APICall.createRecording "user-1" "clip.mp4" 60,
          APICall.simulateHeartRateData "rec-1" 60 "clip.mp4",
          APICall.simulateRiskPrediction "rec-1" [demoRow] "clip.mp4",
          APICall.saveHeartRateData [stripHeartRateRow demoRow],
          APICall.saveRiskPrediction (stripRiskPrediction demoPrediction)],
        scheduledNav := some (2000, "analysis", "rec-1"), alertMsg := none } := by
  have h := (handleProcess_pipeline_order demoUser demoUploadState 0 okAPI rfl).1
    demoRecording [demoRow] demoPrediction rfl rfl rfl rfl rfl rfl
  exact h

/-- C4 counterexample: with the uploading flag already true and a user and
artifact present, a direct second invocation of handleProcess still runs
pipeline steps and changes the session state: the handler itself carries no
reentrancy guard. -/
theorem handleProcess_reentrancy_counterexample :
    (handleProcess (some demoUser) { demoUploadState with uploading := true } 0 okAPI).trace ≠ []
    ∧ (handleProcess (some demoUser) { demoUploadState with uploading := true } 0 okAPI).state
        ≠ { demoUploadState with uploading := true } := by
  exact ⟨by decide, by decide⟩

/-- C4 amended: the at-most-once property is enforced one layer up: while
uploading is true both Analyze Video buttons are disabled, so the click
never reaches handleProcess — no pipeline step runs and the session state
is unchanged. handleProcess itself performs no reentrancy check. -/
theorem clickAnalyze_noop_while_uploading (user : Option User) (s : SessionState)
    (now : Nat) (api : APIEnv) (h : s.uploading = true) :
    clickAnalyze user s now api =
      { state := s, trace := [], scheduledNav := none, alertMsg := none } := by
  simp [clickAnalyze, h]

/-- Witness for C4: a disabled click on the busy demonstration state. -/
theorem clickAnalyze_noop_while_uploading_witness :
    clickAnalyze (some demoUser) { demoUploadState with uploading := true } 0 okAPI =
      { state := { demoUploadState with uploading := true }, trace := [],
        scheduledNav := none, alertMsg := none } :=
  clickAnalyze_noop_while_uploading (some demoUser)
    { demoUploadState with uploading := true } 0 okAPI rfl

/-- C5: the handler never touches the stored artifact; whenever a pipeline
step throws (the alert fires), the final state is the pre-invocation state
with only uploading cleared — artifact kept, uploadComplete and recordingId
unchanged — no navigation is scheduled and the alert carries the thrown
message; past the guards, uploading ends false on the success and the
failure paths alike; and at whichever step the throw happens, the alert
text surfaces that very step's thrown message. -/
theorem handleProcess_failure_recovery (user : Option User) (s : SessionState)
    (now : Nat) (api : APIEnv) :
    ((handleProcess user s now api).state.videoBlob = s.videoBlob
      ∧ (handleProcess user s now api).state.videoFile = s.videoFile)
    ∧ (∀ m, (handleProcess user s now api).alertMsg = some m →
        (handleProcess user s now api).state = { s with uploading := false }
        ∧ (handleProcess user s now api).scheduledNav = none
        ∧ ∃ e, m = processFailureMsg e)
    ∧ (∀ u, user = some u → (s.videoBlob.isNone && s.videoFile.isNone) = false →
        (handleProcess user s now api).state.uploading = false)
    ∧ (∀ u e, user = some u → (s.videoBlob.isNone && s.videoFile.isNone) = false →
        api.ensureUserProfile u.id (u.email.getD "") = Except.error e →
        (handleProcess user s now api).alertMsg = some (processFailureMsg e))
    ∧ (∀ u e, user = some u → (s.videoBlob.isNone && s.videoFile.isNone) = false →
        api.ensureUserProfile u.id (u.email.getD "") = Except.ok () →
        api.createRecording u.id (fileNameOf s.videoFile now) (durationOf s.videoFile)
          = Except.error e →
        (handleProcess user s now api).alertMsg = some (processFailureMsg e))
    ∧ (∀ u rec e, user = some u → (s.videoBlob.isNone && s.videoFile.isNone) = false →
        api.ensureUserProfile u.id (u.email.getD "") = Except.ok () →
        api.createRecording u.id (fileNameOf s.videoFile now) (durationOf s.videoFile)
          = Except.ok rec →
        api.simulateHeartRateData rec.id (durationOf s.videoFile) (fileNameOf s.videoFile now)
          = Except.error e →
        (handleProcess user s now api).alertMsg = some (processFailureMsg e))
    ∧ (∀ u rec hrd e, user = some u → (s.videoBlob.isNone && s.videoFile.isNone) = false →
        api.ensureUserProfile u.id (u.email.getD "") = Except.ok () →
        api.createRecording u.id (fileNameOf s.videoFile now) (durationOf s.videoFile)
          = Except.ok rec →
        api.simulateHeartRateData rec.id (durationOf s.videoFile) (fileNameOf s.videoFile now)
          = Except.ok hrd →
        api.simulateRiskPrediction rec.id hrd (fileNameOf s.videoFile now) = Except.error e →
        (handleProcess user s now api).alertMsg = some (processFailureMsg e))
    ∧ (∀ u rec hrd pred e, user = some u → (s.videoBlob.isNone && s.videoFile.isNone) = false →
        api.ensureUserProfile u.id (u.email.getD "") = Except.ok () →
        api.createRecording u.id (fileNameOf s.videoFile now) (durationOf s.videoFile)
          = Except.ok rec →
        api.simulateHeartRateData rec.id (durationOf s.videoFile) (fileNameOf s.videoFile now)
          = Except.ok hrd →
        api.simulateRiskPrediction rec.id hrd (fileNameOf s.videoFile now) = Except.ok pred →
        api.saveHeartRateData (hrd.map stripHeartRateRow) = Except.error e →
        (handleProcess user s now api).alertMsg = some (processFailureMsg e))
    ∧ (∀ u rec hrd pred e, user = some u → (s.videoBlob.isNone && s.videoFile.isNone) = false →
        api.ensureUserProfile u.id (u.email.getD "") = Except.ok () →
        api.createRecording u.id (fileNameOf s.videoFile now) (durationOf s.videoFile)
          = Except.ok rec →
        api.simulateHeartRateData rec.id (durationOf s.videoFile) (fileNameOf s.videoFile now)
          = Except.ok hrd →
        api.simulateRiskPrediction rec.id hrd (fileNameOf s.videoFile now) = Except.ok pred →
        api.saveHeartRateData (hrd.map stripHeartRateRow) = Except.ok () →
        api.saveRiskPrediction (stripRiskPrediction pred) = Except.error e →
        (handleProcess user s now api).alertMsg = some (processFailureMsg e)) := by
  refine ⟨?_, ?_, ?_, ?_, ?_, ?_, ?_, ?_, ?_⟩
  · cases user with
    | none => exact ⟨rfl, rfl⟩
    | some u =>
      rcases Bool.eq_false_or_eq_true (s.videoBlob.isNone && s.videoFile.isNone) with hg | hg
      · rw [handleProcess_no_artifact u s now api hg]
        exact ⟨rfl, rfl⟩
      · rcases handleProcess_run_cases u s now api hg with ⟨e, t, heq⟩ | ⟨r, t, heq⟩ <;>
          rw [heq] <;> exact ⟨rfl, rfl⟩
  · intro m hm
    cases user with
    | none =>
      rw [handleProcess_no_user] at hm
      exact absurd hm (by simp)
    | some u =>
      rcases Bool.eq_false_or_eq_true (s.videoBlob.isNone && s.videoFile.isNone) with hg | hg
      · rw [handleProcess_no_artifact u s now api hg] at hm
        exact absurd hm (by simp)
      · rcases handleProcess_run_cases u s now api hg with ⟨e, t, heq⟩ | ⟨r, t, heq⟩
        · rw [heq] at hm ⊢
          simp only at hm
          exact ⟨rfl, rfl, e, (Option.some.inj hm).symm⟩
        · rw [heq] at hm
          exact absurd hm (by simp)
  · intro u hu hg
    subst hu
    rcases handleProcess_run_cases u s now api hg with ⟨e, t, heq⟩ | ⟨r, t, heq⟩ <;>
      rw [heq]
  · intro u e hu hg h1
    subst hu
    simp only [handleProcess, hg, Bool.false_eq_true, if_false, h1]
  · intro u e hu hg h1 h2
    subst hu
    simp only [handleProcess, hg, Bool.false_eq_true, if_false, h1, h2]
  · intro u rec e hu hg h1 h2 h3
    subst hu
    simp only [handleProcess, hg, Bool.false_eq_true, if_false, h1, h2, h3]
  · intro u rec hrd e hu hg h1 h2 h3 h4
    subst hu
    simp only [handleProcess, hg, Bool.false_eq_true, if_false, h1, h2, h3, h4]
  · intro u rec hrd pred e hu hg h1 h2 h3 h4 h5
    subst hu
    simp only [handleProcess, hg, Bool.false_eq_true, if_false, h1, h2, h3, h4, h5]
  · intro u rec hrd pred e hu hg h1 h2 h3 h4 h5 h6
    subst hu
    simp only [handleProcess, hg, Bool.false_eq_true, if_false, h1, h2, h3, h4, h5, h6]

/-- Witness for C5: the create-recording step throws the message boom on
the demonstration state; the artifact survives, nothing is scheduled, and
the alert surfaces exactly that thrown message. -/
theorem handleProcess_failure_recovery_witness :
    (handleProcess (some demoUser) demoUploadState 0 failCreateAPI).state
      = { demoUploadState with uploading := false }
    ∧ (handleProcess (some demoUser) demoUploadState 0 failCreateAPI).scheduledNav = none
    ∧ (handleProcess (some demoUser) demoUploadState 0 failCreateAPI).alertMsg
      = some (processFailureMsg "boom") := by
  have h := handleProcess_failure_recovery (some demoUser) demoUploadState 0 failCreateAPI
  have halert := h.2.2.2.2.1 demoUser "boom" rfl rfl rfl rfl
  have hm := h.2.1 (processFailureMsg "boom") halert
  exact ⟨hm.1, hm.2.1, halert⟩

/-- C6 counterexample: from a state that carries a recording id, resetting
does not restore the initial state: handleReset never clears recordingId
(nor uploading). -/
theorem handleReset_counterexample :
    handleReset { demoUploadState with uploadComplete := true, recordingId := some "rec-1" }
      ≠ initialState
    ∧ (handleReset { demoUploadState with uploadComplete := true, recordingId := some "rec-1" }).recordingId
      = some "rec-1" := by
  exact ⟨by decide, rfl⟩

/-- C6 amended: handleReset clears the artifact (blob and file), the
completion flag and the mode, but leaves uploading and recordingId as they
were; it therefore restores the exact initial state precisely from states
where uploading is already false and recordingId is still none. -/
theorem handleReset_clears_session (s : SessionState) :
    (handleReset s).mode = Mode.select
    ∧ (handleReset s).videoBlob = none
    ∧ (handleReset s).videoFile = none
    ∧ (handleReset s).uploadComplete = false
    ∧ (handleReset s).uploading = s.uploading
    ∧ (handleReset s).recordingId = s.recordingId
    ∧ (s.uploading = false → s.recordingId = none → handleReset s = initialState) := by
  refine ⟨rfl, rfl, rfl, rfl, rfl, rfl, ?_⟩
  intro h1 h2
  cases s
  simp_all [handleReset, initialState]

/-- Witness for C6 on the demonstration reviewing state, where uploading is
false and no recording id exists yet. -/
theorem handleReset_clears_session_witness :
    demoUploadState.uploading = false ∧ demoUploadState.recordingId = none
    ∧ handleReset demoUploadState = initialState :=
  ⟨rfl, rfl, (handleReset_clears_session demoUploadState).2.2.2.2.2.2 rfl rfl⟩

/-- The upload with an empty file name used against C7; it passes
validation on its MIME type alone, so it is reachable through the upload
widget. -/
def emptyNameFile : VFile := { name := "", type := "video/mp4", size := 1024 }

/-- The reviewing state holding the empty-named upload. -/
def emptyNameState : SessionState :=
  { mode := Mode.upload, videoBlob := none, videoFile := some emptyNameFile,
    uploading := false, uploadComplete := false, recordingId := none }

/-- C7 counterexample: the artifact's original name is present (the empty
string) and the file passes validation, yet create-recording is called with
the timestamp-derived synthetic name, not the original name: JavaScript
logical-or treats the empty name as absent. -/
theorem createRecording_name_counterexample :
    (validateFile emptyNameFile).accepted = true
    ∧ APICall.createRecording "user-1" "recording-5.webm" 60
        ∈ (handleProcess (some demoUser) emptyNameState 5 okAPI).trace
    ∧ APICall.createRecording "user-1" "" 60
        ∉ (handleProcess (some demoUser) emptyNameState 5 okAPI).trace := by
  exact ⟨by decide, by decide, by decide⟩

/-- C7 amended: past the guards and a successful profile step,
create-recording is always called with duration exactly 60 (whether the
artifact was recorded or uploaded, whatever its length) and with the
artifact's original name when that name is present and non-empty, else with
the synthetic recording-(timestamp).webm name. -/
theorem createRecording_arguments (u : User) (s : SessionState) (now : Nat)
    (api : APIEnv) (hg : (s.videoBlob.isNone && s.videoFile.isNone) = false)
    (h1 : api.ensureUserProfile u.id (u.email.getD "") = Except.ok ()) :
    APICall.createRecording u.id (fileNameOf s.videoFile now) (durationOf s.videoFile)
      ∈ (handleProcess (some u) s now api).trace
    ∧ durationOf s.videoFile = 60
    ∧ (∀ f, s.videoFile = some f → f.name ≠ "" → fileNameOf s.videoFile now = f.name)
    ∧ (∀ f, s.videoFile = some f → f.name = "" → fileNameOf s.videoFile now = syntheticName now)
    ∧ (s.videoFile = none → fileNameOf s.videoFile now = syntheticName now) := by
  refine ⟨?_, ?_, ?_, ?_, ?_⟩
  · simp only [handleProcess, hg, Bool.false_eq_true, if_false, h1]
    split
    · simp
    · split
      · simp
      · split
        · simp
        · split
          · simp
          · split
            · simp
            · simp
  · simp [durationOf]
  · intro f hf hne
    rw [hf]
    simp [fileNameOf, hne]
  · intro f hf he
    rw [hf]
    simp [fileNameOf, he]
  · intro hf
    rw [hf]
    rfl

/-- Witness for C7 on the demonstration upload: the create call carries the
original non-empty name and duration 60. -/
theorem createRecording_arguments_witness :
    APICall.createRecording "user-1" "clip.mp4" 60
      ∈ (handleProcess (some demoUser) demoUploadState 0 okAPI).trace := by
  have h := (createRecording_arguments demoUser demoUploadState 0 okAPI rfl rfl).1
  exact h

/-- C8: on the persisting path, the rows handed to saveHeartRateData are
exactly the generated series rows with id and created_at removed, the
object handed to saveRiskPrediction is exactly the generated prediction
with id and created_at removed, and the stripping keeps every other field
unchanged. -/
theorem persisted_data_strips_server_fields (u : User) (s : SessionState) (now : Nat)
    (api : APIEnv) (rec : Recording) (hrd : List HeartRateRow) (pred : RiskPrediction)
    (hg : (s.videoBlob.isNone && s.videoFile.isNone) = false)
    (h1 : api.ensureUserProfile u.id (u.email.getD "") = Except.ok ())
    (h2 : api.createRecording u.id (fileNameOf s.videoFile now) (durationOf s.videoFile)
      = Except.ok rec)
    (h3 : api.simulateHeartRateData rec.id (durationOf s.videoFile) (fileNameOf s.videoFile now)
      = Except.ok hrd)
    (h4 : api.simulateRiskPrediction rec.id hrd (fileNameOf s.videoFile now) = Except.ok pred)
    (h5 : api.saveHeartRateData (hrd.map stripHeartRateRow) = Except.ok ()) :
    APICall.saveHeartRateData (hrd.map stripHeartRateRow)
      ∈ (handleProcess (some u) s now api).trace
    ∧ APICall.saveRiskPrediction (stripRiskPrediction pred)
      ∈ (handleProcess (some u) s now api).trace
    ∧ (∀ r : HeartRateRow,
        (stripHeartRateRow r).recording_id = r.recording_id
        ∧ (stripHeartRateRow r).timestamp = r.timestamp
        ∧ (stripHeartRateRow r).value = r.value)
    ∧ (stripRiskPrediction pred).recording_id = pred.recording_id
    ∧ (stripRiskPrediction pred).risk_level = pred.risk_level
    ∧ (stripRiskPrediction pred).risk_score = pred.risk_score
    ∧ (stripRiskPrediction pred).insights = pred.insights := by
  refine ⟨?_, ?_, fun r => ⟨rfl, rfl, rfl⟩, rfl, rfl, rfl, rfl⟩
  · simp only [handleProcess, hg, Bool.false_eq_true, if_false, h1, h2, h3, h4, h5]
    split
    · simp
    · simp
  · simp only [handleProcess, hg, Bool.false_eq_true, if_false, h1, h2, h3, h4, h5]
    split
    · simp
    · simp

/-- Witness for C8 on the demonstration run: both save calls appear with
the stripped payloads. -/
theorem persisted_data_strips_server_fields_witness :
    APICall.saveHeartRateData [{ recording_id := "rec-1", timestamp := 0, value := 72 }]
      ∈ (handleProcess (some demoUser) demoUploadState 0 okAPI).trace
    ∧ APICall.saveRiskPrediction
        { recording_id := "rec-1", risk_level := "low", risk_score := 12, insights := ["demo"] }
      ∈ (handleProcess (some demoUser) demoUploadState 0 okAPI).trace := by
  have h := persisted_data_strips_server_fields demoUser demoUploadState 0 okAPI
    demoRecording [demoRow] demoPrediction rfl rfl rfl rfl rfl rfl
  exact ⟨h.1, h.2.1⟩

/-- The timer cancellations RecordingPage registers for teardown: the
setTimeout handle is discarded (the call's return value is never stored)
and the component registers no unmount cleanup — no clearTimeout appears
anywhere in the file — so the set is empty. -/
def teardownCancelledTimers : List Nat := []

/-- Platform timer semantics applied to the timers pending at teardown
time: a pending timer still fires unless a registered cleanup cancelled
it. -/
def firesAfterTeardown (timerId : Nat) : Bool :=
  !(teardownCancelledTimers.contains timerId)

/-- C9 evidence: a successful run schedules navigation to the analysis view
with the new recording id after exactly 2000 ms — the first half of the
claim holds — but the timer is not cancellable: no timer id is ever in the
teardown cancellation set, so the pending navigation still fires when the
page is torn down before the delay elapses, against the required
behavior. -/
theorem scheduled_navigation_not_cancelled :
    (handleProcess (some demoUser) demoUploadState 0 okAPI).scheduledNav
      = some (2000, "analysis", "rec-1")
    ∧ (∀ timerId : Nat, firesAfterTeardown timerId = true) :=
  ⟨rfl, fun _ => rfl⟩

/-- C10: with no authenticated user the handler returns at its first guard:
no API call is made, nothing is scheduled or alerted, and the session state
(uploading, uploadComplete, recordingId and both artifact cells) is
returned unchanged. -/
theorem handleProcess_requires_user (s : SessionState) (now : Nat) (api : APIEnv) :
    handleProcess none s now api =
      { state := s, trace := [], scheduledNav := none, alertMsg := none } := rfl

end HridaySpec
